import Mathlib

/-!
Shallow embedding of the `oscal_types` Rust library: validated OSCAL scalar
datatypes.  Each Lean definition translates the Rust item of the same name;
external parser crates (chrono, iso8601_duration, fluent_uri) are modelled as
collaborator functions, with their modelling noted in the doc comment.
-/

namespace OscalTypes

/-- Payload of `std::net::AddrParseError`; the library never inspects it. -/
structure AddrParseError where
  msg : String
deriving DecidableEq

/-- Payload of `uuid::Error`; the library never inspects it. -/
structure UuidError where
  msg : String
deriving DecidableEq

/-- Payload of `chrono::ParseError`; the library never inspects it. -/
structure ChronoParseError where
  msg : String
deriving DecidableEq

/-- Payload of `fluent_uri::ParseError`; the library never inspects it. -/
structure UriParseError where
  msg : String
deriving DecidableEq

/-- The error enum of `src/error.rs`, one constructor per variant. -/
inductive Error where
  | AddressParse (e : AddrParseError)
  | BooleanParse
  | UuidParse (e : UuidError)
  | DateParse (e : ChronoParseError)
  | DurationParse
  | StringParse (msg : String)
  | UriParse (e : UriParseError)
  | UriAbsolute
  | NCNameIllegalFirstChar
  | NCNameIllegalChar
  | UnrecognizedTypeName (name : String)
deriving DecidableEq

/-- A single-field wrapper over a raw string, the shape shared by every
string-backed datatype (`pub struct XDatatype(String)`). -/
structure Wrapped where
  raw : String
deriving DecidableEq

/-- Rendering a wrapped value back to text: `Deref`/serialization return the
stored string unchanged. -/
def Wrapped.render (w : Wrapped) : String := w.raw

namespace string_impl

/-- The `TryFrom<&str>` implementation generated by the `string_impl!` macro
(and hand-written identically for the URI types): run the type's `validate`,
then store the raw input unchanged. -/
def try_from (validate : String → Except Error Unit) (value : String) :
    Except Error Wrapped :=
  match validate value with
  | .ok () => .ok ⟨value⟩
  | .error e => .error e

end string_impl

/-! ## strings.rs -/

namespace Base64Datatype

/-- `Base64Datatype::validate`: always succeeds. -/
def validate (_value : String) : Except Error Unit := .ok ()

end Base64Datatype

/-- Rust `char::is_whitespace`: membership in the Unicode `White_Space`
set, used by `str::trim`. -/
def rustIsWhitespace (c : Char) : Bool :=
  decide ((0x9 ≤ c.toNat ∧ c.toNat ≤ 0xD) ∨ c.toNat = 0x20 ∨ c.toNat = 0x85 ∨
    c.toNat = 0xA0 ∨ c.toNat = 0x1680 ∨ (0x2000 ≤ c.toNat ∧ c.toNat ≤ 0x200A) ∨
    c.toNat = 0x2028 ∨ c.toNat = 0x2029 ∨ c.toNat = 0x202F ∨
    c.toNat = 0x205F ∨ c.toNat = 0x3000)

/-- Rust `str::trim`: drop whitespace from both ends. -/
def rustTrim (s : String) : String :=
  ⟨((s.data.dropWhile rustIsWhitespace).reverse.dropWhile rustIsWhitespace).reverse⟩

namespace StringDatatype

/-- `StringDatatype::validate`: accept iff the value equals its own trim. -/
def validate (value : String) : Except Error Unit :=
  if rustTrim value = value then .ok ()
  else .error (.StringParse "Trailing and leading whitespace is not allowed")

/-- `StringDatatype`'s `TryFrom<&str>` from the `string_impl!` macro. -/
def try_from (value : String) : Except Error Wrapped :=
  string_impl.try_from validate value

/-- The `description` metadata accessor generated by `string_impl!`. -/
def description : Option String :=
  some "A non-empty string with leading and trailing whitespace disallowed. Whitespace is: U+9, U+10, U+32 or [ \n\t]+"

end StringDatatype

namespace EmailAddressDatatype

/-- `EmailAddressDatatype::validate`: always succeeds. -/
def validate (_value : String) : Except Error Unit := .ok ()

end EmailAddressDatatype

namespace HostnameDatatype

/-- `HostnameDatatype::validate`: always succeeds. -/
def validate (_value : String) : Except Error Unit := .ok ()

end HostnameDatatype

/-! ## nc_name.rs -/

/-- The `NCName` wrapper struct. -/
structure NCName where
  val : String
deriving DecidableEq

namespace NCName

/-- `NCName::is_valid_start_char`: legal `NCNameStartChar` per
"Namespaces in XML 1.1". -/
def is_valid_start_char (c : Char) : Bool :=
  let n := c.toNat
  decide ((0x61 ≤ n ∧ n ≤ 0x7A) ∨ (0x41 ≤ n ∧ n ≤ 0x5A) ∨ n = 0x5F ∨
    (0xC0 ≤ n ∧ n ≤ 0xD6) ∨ (0xD8 ≤ n ∧ n ≤ 0xF6) ∨ (0xF8 ≤ n ∧ n ≤ 0x2FF) ∨
    (0x370 ≤ n ∧ n ≤ 0x37D) ∨ (0x37F ≤ n ∧ n ≤ 0x1FFF) ∨
    (0x200C ≤ n ∧ n ≤ 0x200D) ∨ (0x2070 ≤ n ∧ n ≤ 0x218F) ∨
    (0x2C00 ≤ n ∧ n ≤ 0x2FEF) ∨ (0x3001 ≤ n ∧ n ≤ 0xD7FF) ∨
    (0xF900 ≤ n ∧ n ≤ 0xFDCF) ∨ (0xFDF0 ≤ n ∧ n ≤ 0xFFFD) ∨
    (0x10000 ≤ n ∧ n ≤ 0xEFFFF))

/-- `NCName::is_valid_char`: legal `NCNameChar` per "Namespaces in XML 1.1". -/
def is_valid_char (c : Char) : Bool :=
  let n := c.toNat
  decide ((0x61 ≤ n ∧ n ≤ 0x7A) ∨ (0x41 ≤ n ∧ n ≤ 0x5A) ∨ n = 0x5F ∨
    n = 0x2D ∨ n = 0x2E ∨ n = 0xB7 ∨ (0x30 ≤ n ∧ n ≤ 0x39) ∨
    (0xC0 ≤ n ∧ n ≤ 0xD6) ∨ (0xD8 ≤ n ∧ n ≤ 0xF6) ∨ (0xF8 ≤ n ∧ n ≤ 0x2FF) ∨
    (0x300 ≤ n ∧ n ≤ 0x37D) ∨ (0x37F ≤ n ∧ n ≤ 0x1FFF) ∨
    (0x200C ≤ n ∧ n ≤ 0x200D) ∨ (0x203F ≤ n ∧ n ≤ 0x2040) ∨
    (0x2070 ≤ n ∧ n ≤ 0x218F) ∨ (0x2C00 ≤ n ∧ n ≤ 0x2FEF) ∨
    (0x3001 ≤ n ∧ n ≤ 0xD7FF) ∨ (0xF900 ≤ n ∧ n ≤ 0xFDCF) ∨
    (0xFDF0 ≤ n ∧ n ≤ 0xFFFD) ∨ (0x10000 ≤ n ∧ n ≤ 0xEFFFF))

/-- The tail of the `new_if_valid` loop: after the first character has been
accepted, every further character must satisfy `is_valid_char`. -/
def validChars : List Char → Except Error Unit
  | [] => .ok ()
  | c :: cs => if is_valid_char c then validChars cs else .error .NCNameIllegalChar

/-- `NCName::new_if_valid`: check the first character with
`is_valid_start_char` and the rest with `is_valid_char`; an empty input never
enters the loop and is accepted. -/
def new_if_valid (value : String) : Except Error NCName :=
  match value.data with
  | [] => .ok ⟨value⟩
  | c :: cs =>
    if is_valid_start_char c then
      match validChars cs with
      | .ok () => .ok ⟨value⟩
      | .error e => .error e
    else .error .NCNameIllegalFirstChar

end NCName

namespace TokenDatatype

/-- `TokenDatatype::validate` (strings.rs): delegate to `NCName::try_from`,
discarding the constructed name. -/
def validate (value : String) : Except Error Unit :=
  match NCName.new_if_valid value with
  | .ok _ => .ok ()
  | .error e => .error e

end TokenDatatype

/-! ## dates.rs

The chrono collaborator is consumed only through
`parse(&str) -> Result<T, ParseError>`; the validate functions below take
those parse capabilities as arguments, exactly mirroring the control flow of
`dates.rs`.  `cfg!(feature = "date_validation")` is the `dateValidation`
flag. -/

namespace DateTimeDatatype

/-- `DateTimeDatatype::validate`: when date validation is compiled in, try to
parse as a timezone-aware `DateTime<Utc>`; on failure fall back to a
`NaiveDateTime`; the naive error is the one reported. -/
def validate (dateValidation : Bool)
    (parseUtc parseNaive : String → Except ChronoParseError Unit)
    (value : String) : Except Error Unit :=
  if dateValidation then
    match parseUtc value with
    | .error _ =>
      match parseNaive value with
      | .error e => .error (.DateParse e)
      | .ok () => .ok ()
    | .ok () => .ok ()
  else .ok ()

end DateTimeDatatype

namespace DateTimeWithTimezoneDatatype

/-- `DateTimeWithTimezoneDatatype::validate`: parse as a timezone-aware
`DateTime<Utc>` only; no naive fallback and no feature gate. -/
def validate (parseUtc : String → Except ChronoParseError Unit)
    (value : String) : Except Error Unit :=
  match parseUtc value with
  | .ok () => .ok ()
  | .error e => .error (.DateParse e)

end DateTimeWithTimezoneDatatype

/-- Models the chrono collaborator `str::parse::<NaiveDateTime>` at the
fidelity the witnesses need: a timezone-naive timestamp is
`YYYY-MM-DDTHH:MM:SS` with digits in the numeric positions. -/
def naiveDateTimeShape (s : String) : Bool :=
  match s.data with
  | [y1, y2, y3, y4, c1, m1, m2, c2, d1, d2, t, h1, h2, c3, mi1, mi2, c4, s1, s2] =>
    [y1, y2, y3, y4, m1, m2, d1, d2, h1, h2, mi1, mi2, s1, s2].all Char.isDigit &&
      c1 == '-' && c2 == '-' && t == 'T' && c3 == ':' && c4 == ':'
  | _ => false

/-- Models the chrono collaborator `str::parse::<NaiveDateTime>`. -/
def chronoParseNaiveM (s : String) : Except ChronoParseError Unit :=
  if naiveDateTimeShape s then .ok () else .error ⟨"invalid naive date-time"⟩

/-- A timezone designator: `Z` or a `+HH:MM` / `-HH:MM` offset. -/
def tzSuffixShape (l : List Char) : Bool :=
  match l with
  | [z] => z == 'Z'
  | [sign, h1, h2, c, m1, m2] =>
    (sign == '+' || sign == '-') && [h1, h2, m1, m2].all Char.isDigit && c == ':'
  | _ => false

/-- Models the chrono collaborator `str::parse::<DateTime<Utc>>`: a naive
timestamp followed by a mandatory timezone designator. -/
def chronoParseUtcM (s : String) : Except ChronoParseError Unit :=
  if naiveDateTimeShape ⟨s.data.take 19⟩ && tzSuffixShape (s.data.drop 19) then .ok ()
  else .error ⟨"missing timezone"⟩

/-! ### Durations -/

/-- Models the `iso8601_duration::Duration` collaborator value: one field per
ISO-8601 component, absent components read as zero.  The crate stores floats;
whole units suffice here because the library only consults which components
are nonzero. -/
structure Duration where
  year : Nat
  month : Nat
  day : Nat
  hour : Nat
  minute : Nat
  second : Nat
deriving DecidableEq

/-- Models `iso8601_duration::Duration::num_days`: defined only when the
duration has no year or month component. -/
def Duration.num_days (d : Duration) : Option Nat :=
  if d.year = 0 ∧ d.month = 0 then some d.day else none

/-- Models `iso8601_duration::Duration::num_months`: defined only when the
duration has no day, hour, minute or second component. -/
def Duration.num_months (d : Duration) : Option Nat :=
  if d.day = 0 ∧ d.hour = 0 ∧ d.minute = 0 ∧ d.second = 0 then
    some (d.year * 12 + d.month)
  else none

/-- Read a nonempty run of digits as a number. -/
def readNat : List Char → Option (Nat × List Char)
  | cs =>
    let ds := cs.takeWhile Char.isDigit
    if ds.isEmpty then none
    else some (ds.foldl (fun acc c => acc * 10 + (c.toNat - 0x30)) 0, cs.drop ds.length)

/-- Try to read one duration component `<digits><marker>`; on failure return
the input unchanged. -/
def readComponent (marker : Char) (cs : List Char) : Option Nat × List Char :=
  match readNat cs with
  | some (n, m :: rest) => if m = marker then (some n, rest) else (none, cs)
  | _ => (none, cs)

/-- Models the iso8601_duration collaborator parse: `P` followed by optional
`nY nM nD` and an optional `T nH nM nS` time part, at least one component
present. -/
def iso8601parse (s : String) : Option Duration :=
  match s.data with
  | 'P' :: rest =>
    let (y, r1) := readComponent 'Y' rest
    let (mo, r2) := readComponent 'M' r1
    let (d, r3) := readComponent 'D' r2
    match r3 with
    | [] =>
      if y.isSome || mo.isSome || d.isSome then
        some ⟨y.getD 0, mo.getD 0, d.getD 0, 0, 0, 0⟩
      else none
    | 'T' :: tr =>
      let (h, t1) := readComponent 'H' tr
      let (mi, t2) := readComponent 'M' t1
      let (se, t3) := readComponent 'S' t2
      if t3.isEmpty && (h.isSome || mi.isSome || se.isSome) then
        some ⟨y.getD 0, mo.getD 0, d.getD 0, h.getD 0, mi.getD 0, se.getD 0⟩
      else none
    | _ => none
  | _ => none

namespace DayTimeDurationDatatype

/-- `DayTimeDurationDatatype::validate`: parse as an ISO-8601 duration, then
require `num_days()` to be defined; both failures are `DurationParse`. -/
def validate (value : String) : Except Error Unit :=
  match iso8601parse value with
  | none => .error .DurationParse
  | some d =>
    match d.num_days with
    | some _ => .ok ()
    | none => .error .DurationParse

end DayTimeDurationDatatype

namespace YearMonthDurationDatatype

/-- `YearMonthDurationDatatype::validate`: parse as an ISO-8601 duration, then
require `num_months()` to be defined; both failures are `DurationParse`. -/
def validate (value : String) : Except Error Unit :=
  match iso8601parse value with
  | none => .error .DurationParse
  | some d =>
    match d.num_months with
    | some _ => .ok ()
    | none => .error .DurationParse

end YearMonthDurationDatatype

/-! ## uris.rs

The fluent_uri collaborator is consumed via `parse` and `is_absolute_uri`;
`UriModel` keeps exactly the facts the library queries. -/

/-- Models the parsed `fluent_uri::Uri`: whether a scheme is present and
whether a fragment is present. -/
structure UriModel where
  scheme : Option String
  hasFragment : Bool
deriving DecidableEq

/-- Models `Uri::is_absolute_uri`: a scheme and no fragment. -/
def UriModel.is_absolute_uri (u : UriModel) : Bool :=
  u.scheme.isSome && !u.hasFragment

/-- Characters the model URI parser accepts (unreserved, reserved and `%`;
RFC 3986 at witness fidelity). -/
def uriAllowedChar (c : Char) : Bool :=
  c.isAlphanum || ("-._~:/?#[]@!$&()*+,;=%".data.contains c)

/-- A legal scheme: nonempty, letter first, then letters, digits, `+`, `-`,
`.`. -/
def schemeOk (cs : List Char) : Bool :=
  match cs with
  | [] => false
  | c :: rest => c.isAlpha && rest.all (fun d => d.isAlphanum || d == '+' || d == '-' || d == '.')

/-- The scheme of a URI string: the text before the first `:`, provided that
`:` appears before any `/`, `?` or `#` and the text is a legal scheme. -/
def extractScheme (s : String) : Option String :=
  let pre := s.data.takeWhile (fun c => !(c == ':' || c == '/' || c == '?' || c == '#'))
  match s.data.drop pre.length with
  | ':' :: _ => if schemeOk pre then some ⟨pre⟩ else none
  | _ => none

/-- Models the fluent_uri collaborator `str::parse::<Uri<String>>`. -/
def parseUriM (s : String) : Except UriParseError UriModel :=
  if s.data.all uriAllowedChar && s.data.count '#' ≤ 1 then
    .ok ⟨extractScheme s, s.data.contains '#'⟩
  else .error ⟨"invalid URI"⟩

namespace URIDatatype

/-- `URIDatatype::validate`: parse the URI, then require it to be absolute. -/
def validate (value : String) : Except Error Unit :=
  match parseUriM value with
  | .error e => .error (.UriParse e)
  | .ok uri => if uri.is_absolute_uri then .ok () else .error .UriAbsolute

end URIDatatype

namespace URIReferenceDatatype

/-- `URIReferenceDatatype::validate`: parse the URI and accept. -/
def validate (value : String) : Except Error Unit :=
  match parseUriM value with
  | .error e => .error (.UriParse e)
  | .ok _ => .ok ()

end URIReferenceDatatype

/-! ## numbers.rs

u64 values are modelled as `Nat`; no arithmetic is performed on them and the
construction paths ignore the value entirely. -/

/-- `PositiveIntegerDatatype(u64)`. -/
structure PositiveIntegerDatatype where
  val : Nat
deriving DecidableEq

namespace PositiveIntegerDatatype

/-- `From<u64> for PositiveIntegerDatatype`: infallible wrap. -/
def from_u64 (value : Nat) : PositiveIntegerDatatype := ⟨value⟩

/-- `TryFrom<&u64> for PositiveIntegerDatatype`: always `Ok`. -/
def try_from_ref (value : Nat) : Except Error PositiveIntegerDatatype :=
  .ok ⟨value⟩

/-- `NumberType::minimum` for `PositiveIntegerDatatype`. -/
def minimum : Option Int := some 1

end PositiveIntegerDatatype

/-- `NonNegativeIntegerDatatype(u64)`. -/
structure NonNegativeIntegerDatatype where
  val : Nat
deriving DecidableEq

namespace NonNegativeIntegerDatatype

/-- `From<u64> for NonNegativeIntegerDatatype`: infallible wrap. -/
def from_u64 (value : Nat) : NonNegativeIntegerDatatype := ⟨value⟩

/-- `TryFrom<&u64> for NonNegativeIntegerDatatype`: always `Ok`. -/
def try_from_ref (value : Nat) : Except Error NonNegativeIntegerDatatype :=
  .ok ⟨value⟩

/-- `NumberType::minimum` for `NonNegativeIntegerDatatype`. -/
def minimum : Option Int := some 0

end NonNegativeIntegerDatatype

/-! ## The `Base` trait implementations and the registry of lib.rs

Each datatype's `base_type()` / `ref_type()` are constant strings; the two
registry functions dispatch on the 16 names of the `match` in `lib.rs`. -/

/-- `Base for BooleanDatatype` (boolean.rs). -/
def BooleanDatatype.base_type : String := "bool"

/-- `Base for BooleanDatatype` (boolean.rs). -/
def BooleanDatatype.ref_type : String := "bool"

/-- `Base` from the `string_impl!` macro (dates.rs). -/
def DateDatatype.base_type : String := "String"

/-- `Base` from the `string_impl!` macro (dates.rs). -/
def DateDatatype.ref_type : String := "str"

/-- `Base` from the `string_impl!` macro (dates.rs). -/
def DateTimeDatatype.base_type : String := "String"

/-- `Base` from the `string_impl!` macro (dates.rs). -/
def DateTimeDatatype.ref_type : String := "str"

/-- `Base` from the `string_impl!` macro (dates.rs). -/
def DateTimeWithTimezoneDatatype.base_type : String := "String"

/-- `Base` from the `string_impl!` macro (dates.rs). -/
def DateTimeWithTimezoneDatatype.ref_type : String := "str"

/-- `Base` from the `string_impl!` macro (dates.rs). -/
def DayTimeDurationDatatype.base_type : String := "String"

/-- `Base` from the `string_impl!` macro (dates.rs). -/
def DayTimeDurationDatatype.ref_type : String := "str"

/-- `Base for DecimalDatatype` (numbers.rs). -/
def DecimalDatatype.base_type : String := "f64"

/-- `Base for DecimalDatatype` (numbers.rs). -/
def DecimalDatatype.ref_type : String := "&f64"

/-- `Base for IntegerDatatype` (numbers.rs). -/
def IntegerDatatype.base_type : String := "i64"

/-- `Base for IntegerDatatype` (numbers.rs). -/
def IntegerDatatype.ref_type : String := "&i64"

/-- `Base for NonNegativeIntegerDatatype` (numbers.rs). -/
def NonNegativeIntegerDatatype.base_type : String := "u64"

/-- `Base for NonNegativeIntegerDatatype` (numbers.rs). -/
def NonNegativeIntegerDatatype.ref_type : String := "&u64"

/-- `Base for PositiveIntegerDatatype` (numbers.rs). -/
def PositiveIntegerDatatype.base_type : String := "u64"

/-- `Base for PositiveIntegerDatatype` (numbers.rs). -/
def PositiveIntegerDatatype.ref_type : String := "&u64"

/-- `Base` from the `string_impl!` macro (strings.rs). -/
def StringDatatype.base_type : String := "String"

/-- `Base` from the `string_impl!` macro (strings.rs). -/
def StringDatatype.ref_type : String := "str"

/-- `Base` from the `string_impl!` macro (strings.rs). -/
def Base64Datatype.base_type : String := "String"

/-- `Base` from the `string_impl!` macro (strings.rs). -/
def Base64Datatype.ref_type : String := "str"

/-- `Base` from the `string_impl!` macro (strings.rs). -/
def EmailAddressDatatype.base_type : String := "String"

/-- `Base` from the `string_impl!` macro (strings.rs). -/
def EmailAddressDatatype.ref_type : String := "str"

/-- `Base` from the `string_impl!` macro (strings.rs). -/
def TokenDatatype.base_type : String := "String"

/-- `Base` from the `string_impl!` macro (strings.rs). -/
def TokenDatatype.ref_type : String := "str"

/-- `Base for URIDatatype` (uris.rs). -/
def URIDatatype.base_type : String := "String"

/-- `Base for URIDatatype` (uris.rs). -/
def URIDatatype.ref_type : String := "str"

/-- `Base for URIReferenceDatatype` (uris.rs). -/
def URIReferenceDatatype.base_type : String := "String"

/-- `Base for URIReferenceDatatype` (uris.rs). -/
def URIReferenceDatatype.ref_type : String := "str"

/-- `Base for UUIDDatatype` (uuid.rs). -/
def UUIDDatatype.base_type : String := "String"

/-- `Base for UUIDDatatype` (uuid.rs). -/
def UUIDDatatype.ref_type : String := "str"

/-- `get_base_type` of lib.rs: the sixteen-armed `match` on the type name. -/
def get_base_type (name : String) : Except Error String :=
  if name = "BooleanDatatype" then .ok BooleanDatatype.base_type
  else if name = "DateDatatype" then .ok DateDatatype.base_type
  else if name = "DateTimeDatatype" then .ok DateTimeDatatype.base_type
  else if name = "DateTimeWithTimezoneDatatype" then .ok DateTimeWithTimezoneDatatype.base_type
  else if name = "DayTimeDurationDatatype" then .ok DayTimeDurationDatatype.base_type
  else if name = "DecimalDatatype" then .ok DecimalDatatype.base_type
  else if name = "IntegerDatatype" then .ok IntegerDatatype.base_type
  else if name = "NonNegativeIntegerDatatype" then .ok NonNegativeIntegerDatatype.base_type
  else if name = "PositiveIntegerDatatype" then .ok PositiveIntegerDatatype.base_type
  else if name = "StringDatatype" then .ok StringDatatype.base_type
  else if name = "Base64Datatype" then .ok Base64Datatype.base_type
  else if name = "EmailAddressDatatype" then .ok EmailAddressDatatype.base_type
  else if name = "TokenDatatype" then .ok TokenDatatype.base_type
  else if name = "URIDatatype" then .ok URIDatatype.base_type
  else if name = "URIReferenceDatatype" then .ok URIReferenceDatatype.base_type
  else if name = "UUIDDatatype" then .ok UUIDDatatype.base_type
  else .error (.UnrecognizedTypeName name)

/-- `get_ref_type` of lib.rs: the sixteen-armed `match` on the type name. -/
def get_ref_type (name : String) : Except Error String :=
  if name = "BooleanDatatype" then .ok BooleanDatatype.ref_type
  else if name = "DateDatatype" then .ok DateDatatype.ref_type
  else if name = "DateTimeDatatype" then .ok DateTimeDatatype.ref_type
  else if name = "DateTimeWithTimezoneDatatype" then .ok DateTimeWithTimezoneDatatype.ref_type
  else if name = "DayTimeDurationDatatype" then .ok DayTimeDurationDatatype.ref_type
  else if name = "DecimalDatatype" then .ok DecimalDatatype.ref_type
  else if name = "IntegerDatatype" then .ok IntegerDatatype.ref_type
  else if name = "NonNegativeIntegerDatatype" then .ok NonNegativeIntegerDatatype.ref_type
  else if name = "PositiveIntegerDatatype" then .ok PositiveIntegerDatatype.ref_type
  else if name = "StringDatatype" then .ok StringDatatype.ref_type
  else if name = "Base64Datatype" then .ok Base64Datatype.ref_type
  else if name = "EmailAddressDatatype" then .ok EmailAddressDatatype.ref_type
  else if name = "TokenDatatype" then .ok TokenDatatype.ref_type
  else if name = "URIDatatype" then .ok URIDatatype.ref_type
  else if name = "URIReferenceDatatype" then .ok URIReferenceDatatype.ref_type
  else if name = "UUIDDatatype" then .ok UUIDDatatype.ref_type
  else .error (.UnrecognizedTypeName name)

/-- The sixteen names the lib.rs registry recognizes. -/
def registryNames : List String :=
  ["BooleanDatatype", "DateDatatype", "DateTimeDatatype",
   "DateTimeWithTimezoneDatatype", "DayTimeDurationDatatype", "DecimalDatatype",
   "IntegerDatatype", "NonNegativeIntegerDatatype", "PositiveIntegerDatatype",
   "StringDatatype", "Base64Datatype", "EmailAddressDatatype", "TokenDatatype",
   "URIDatatype", "URIReferenceDatatype", "UUIDDatatype"]

/-- `Result::is_ok` for registry lookups. -/
def lookupOk (r : Except Error String) : Bool :=
  match r with
  | .ok _ => true
  | .error _ => false

/-! ## Helper lemmas -/

/-- Dropping a prefix never lengthens a list. -/
theorem len_dropWhile_le (p : Char → Bool) (l : List Char) :
    (l.dropWhile p).length ≤ l.length := by
  induction l with
  | nil => simp [List.dropWhile]
  | cons c cs ih =>
    by_cases hc : p c = true
    · rw [List.dropWhile_cons_of_pos hc]
      exact Nat.le_trans ih (Nat.le_succ _)
    · rw [List.dropWhile_cons_of_neg (by simpa using hc)]

/-- `dropWhile` either leaves the list unchanged or strictly shortens it. -/
theorem dropWhile_id_or_lt (p : Char → Bool) (l : List Char) :
    l.dropWhile p = l ∨ (l.dropWhile p).length < l.length := by
  cases l with
  | nil => left; rfl
  | cons c cs =>
    by_cases hc : p c = true
    · right
      rw [List.dropWhile_cons_of_pos hc]
      exact Nat.lt_succ_of_le (len_dropWhile_le p cs)
    · left
      rw [List.dropWhile_cons_of_neg (by simpa using hc)]

/-- The trimmed string is never longer than the first-stage
(leading-whitespace) drop. -/
theorem rustTrim_len_le_stage1 (s : String) :
    (rustTrim s).data.length ≤ (s.data.dropWhile rustIsWhitespace).length := by
  show ((s.data.dropWhile rustIsWhitespace).reverse.dropWhile rustIsWhitespace).reverse.length ≤ _
  rw [List.length_reverse]
  calc ((s.data.dropWhile rustIsWhitespace).reverse.dropWhile rustIsWhitespace).length
      ≤ (s.data.dropWhile rustIsWhitespace).reverse.length :=
        len_dropWhile_le _ _
    _ = (s.data.dropWhile rustIsWhitespace).length := List.length_reverse _

/-- A leading whitespace character strictly shortens the trim. -/
theorem rustTrim_shorter_of_leading (s : String) (c : Char) (cs : List Char)
    (hdata : s.data = c :: cs) (hws : rustIsWhitespace c = true) :
    (rustTrim s).data.length < s.data.length := by
  have h1 : s.data.dropWhile rustIsWhitespace = cs.dropWhile rustIsWhitespace := by
    rw [hdata, List.dropWhile_cons_of_pos hws]
  have h2 := rustTrim_len_le_stage1 s
  rw [h1] at h2
  have h3 := len_dropWhile_le rustIsWhitespace cs
  rw [hdata]
  simp only [List.length_cons]
  omega

/-- A trailing whitespace character strictly shortens the trim. -/
theorem rustTrim_shorter_of_trailing (s : String) (l : List Char) (c : Char)
    (hdata : s.data = l ++ [c]) (hws : rustIsWhitespace c = true) :
    (rustTrim s).data.length < s.data.length := by
  rcases dropWhile_id_or_lt rustIsWhitespace s.data with h | h
  · have hrev : (s.data.dropWhile rustIsWhitespace).reverse = c :: l.reverse := by
      rw [h, hdata, List.reverse_append]
      rfl
    have h2 :
        ((s.data.dropWhile rustIsWhitespace).reverse.dropWhile rustIsWhitespace).length
          ≤ l.reverse.length := by
      rw [hrev, List.dropWhile_cons_of_pos hws]
      exact len_dropWhile_le _ _
    have h3 : (rustTrim s).data.length
        = ((s.data.dropWhile rustIsWhitespace).reverse.dropWhile rustIsWhitespace).length := by
      show ((s.data.dropWhile rustIsWhitespace).reverse.dropWhile rustIsWhitespace).reverse.length = _
      rw [List.length_reverse]
    rw [hdata]
    rw [List.length_reverse] at h2
    simp only [List.length_append, List.length_cons, List.length_nil]
    omega
  · have h2 := rustTrim_len_le_stage1 s
    omega

/-- Strings with data of different lengths are different. -/
theorem rustTrim_ne_of_shorter (s : String)
    (h : (rustTrim s).data.length < s.data.length) : rustTrim s ≠ s := by
  intro he
  rw [he] at h
  exact Nat.lt_irrefl _ h

/-- The loop tail of `new_if_valid` fails with `NCNameIllegalChar` whenever
some character of the tail is illegal. -/
theorem validChars_error_of_bad (cs : List Char) :
    (∃ d ∈ cs, NCName.is_valid_char d = false) →
    NCName.validChars cs = .error .NCNameIllegalChar := by
  induction cs with
  | nil =>
    rintro ⟨d, hd, -⟩
    exact absurd hd (List.not_mem_nil d)
  | cons c cs ih =>
    rintro ⟨d, hd, hbad⟩
    by_cases hc : NCName.is_valid_char c = true
    · have hstep : NCName.validChars (c :: cs) = NCName.validChars cs := by
        simp [NCName.validChars, hc]
      rw [hstep]
      apply ih
      rcases List.mem_cons.mp hd with rfl | hmem
      · simp [hbad] at hc
      · exact ⟨d, hmem, hbad⟩
    · simp only [Bool.not_eq_true] at hc
      simp [NCName.validChars, hc]

/-! ## Claim theorems -/

/-- C1 counterexample: `HostnameDatatype` is declared in the datatype family
(strings.rs), yet both registry functions return
`Err(UnrecognizedTypeName("HostnameDatatype"))` for it, so the claim that
every declared datatype's name resolves to `Ok` is false. -/
theorem registry_misses_hostname :
    get_base_type "HostnameDatatype"
        = .error (.UnrecognizedTypeName "HostnameDatatype") ∧
    get_ref_type "HostnameDatatype"
        = .error (.UnrecognizedTypeName "HostnameDatatype") :=
  ⟨rfl, rfl⟩

/-- C1 (amended): `get_base_type` and `get_ref_type` return `Ok` for exactly
the sixteen names of the `match` in lib.rs (which omit the hostname, IPv4,
IPv6, markup-line, markup-multiline and year-month-duration datatypes), and
return `Err(UnrecognizedTypeName(name))` for every name outside that set. -/
theorem registry_exactly_sixteen :
    (∀ name ∈ registryNames,
      lookupOk (get_base_type name) = true ∧ lookupOk (get_ref_type name) = true) ∧
    (∀ name, name ∉ registryNames →
      get_base_type name = .error (.UnrecognizedTypeName name) ∧
      get_ref_type name = .error (.UnrecognizedTypeName name)) := by
  constructor
  · decide
  · intro name h
    simp only [registryNames, List.mem_cons, List.not_mem_nil, or_false,
      not_or] at h
    obtain ⟨h1, h2, h3, h4, h5, h6, h7, h8, h9, h10, h11, h12, h13, h14, h15,
      h16⟩ := h
    constructor
    · simp [get_base_type, h1, h2, h3, h4, h5, h6, h7, h8, h9, h10, h11, h12,
        h13, h14, h15, h16]
    · simp [get_ref_type, h1, h2, h3, h4, h5, h6, h7, h8, h9, h10, h11, h12,
        h13, h14, h15, h16]

/-- C1 witness: the registry accepts a listed name and rejects the declared
but unlisted `YearMonthDurationDatatype`. -/
theorem registry_exactly_sixteen_witness :
    (lookupOk (get_base_type "BooleanDatatype") = true ∧
      lookupOk (get_ref_type "BooleanDatatype") = true) ∧
    get_base_type "YearMonthDurationDatatype"
      = .error (.UnrecognizedTypeName "YearMonthDurationDatatype") :=
  ⟨registry_exactly_sixteen.1 "BooleanDatatype" (by decide),
   (registry_exactly_sixteen.2 "YearMonthDurationDatatype" (by decide)).1⟩

/-- C2: every `TryFrom<&str>` produced by the `string_impl!` macro (the shape
shared by all string-backed datatypes other than UUID, and hand-written
identically for the URI types) stores the raw input unchanged, so rendering
an accepted value back to text and reconstructing yields the same value. -/
theorem try_from_round_trip :
    ∀ (validate : String → Except Error Unit) (s : String) (w : Wrapped),
      string_impl.try_from validate s = .ok w →
      string_impl.try_from validate w.render = .ok w := by
  intro validate s w h
  cases hv : validate s with
  | ok u =>
    cases u
    have hs : string_impl.try_from validate s = .ok ⟨s⟩ := by
      simp [string_impl.try_from, hv]
    rw [hs] at h
    cases h
    simp [string_impl.try_from, Wrapped.render, hv]
  | error e =>
    have hs : string_impl.try_from validate s = .error e := by
      simp [string_impl.try_from, hv]
    rw [hs] at h
    cases h

/-- C2 witness: the plain-string datatype round-trips `"abc"`. -/
theorem try_from_round_trip_witness :
    string_impl.try_from StringDatatype.validate "abc" = .ok ⟨"abc"⟩ ∧
    string_impl.try_from StringDatatype.validate (Wrapped.render ⟨"abc"⟩)
      = .ok ⟨"abc"⟩ :=
  ⟨rfl, try_from_round_trip StringDatatype.validate "abc" ⟨"abc"⟩ rfl⟩

/-- C3: the plain date-time `validate` accepts timezone-aware timestamps,
falls back to the timezone-naive parse, and reports the naive parse error on
double failure; the timezone-mandatory variant accepts only timezone-aware
timestamps and fails with `DateParse` whenever the timezone-aware parse
fails, in particular on timezone-naive input. -/
theorem date_time_tz_fallback :
    ∀ (pUtc pNaive : String → Except ChronoParseError Unit) (v : String),
      (pUtc v = .ok () → DateTimeDatatype.validate true pUtc pNaive v = .ok ()) ∧
      (∀ e, pUtc v = .error e → pNaive v = .ok () →
        DateTimeDatatype.validate true pUtc pNaive v = .ok ()) ∧
      (∀ e e', pUtc v = .error e → pNaive v = .error e' →
        DateTimeDatatype.validate true pUtc pNaive v = .error (.DateParse e')) ∧
      (pUtc v = .ok () → DateTimeWithTimezoneDatatype.validate pUtc v = .ok ()) ∧
      (∀ e, pUtc v = .error e →
        DateTimeWithTimezoneDatatype.validate pUtc v = .error (.DateParse e)) := by
  intro pUtc pNaive v
  refine ⟨fun h => by simp [DateTimeDatatype.validate, h], ?_, ?_,
    fun h => by simp [DateTimeWithTimezoneDatatype.validate, h],
    fun e h => by simp [DateTimeWithTimezoneDatatype.validate, h]⟩
  · intro e h hn
    simp [DateTimeDatatype.validate, h, hn]
  · intro e e' h hn
    simp [DateTimeDatatype.validate, h, hn]

/-- C3 witness: the timezone-naive timestamp `2024-04-13T09:57:13` is
accepted by the plain date-time type and rejected with `DateParse` by the
timezone-mandatory type, under the model chrono parsers. -/
theorem date_time_tz_fallback_witness :
    DateTimeDatatype.validate true chronoParseUtcM chronoParseNaiveM
      "2024-04-13T09:57:13" = .ok () ∧
    DateTimeWithTimezoneDatatype.validate chronoParseUtcM
      "2024-04-13T09:57:13" = .error (.DateParse ⟨"missing timezone"⟩) :=
  ⟨(date_time_tz_fallback chronoParseUtcM chronoParseNaiveM
      "2024-04-13T09:57:13").2.1 ⟨"missing timezone"⟩ rfl rfl,
   (date_time_tz_fallback chronoParseUtcM chronoParseNaiveM
      "2024-04-13T09:57:13").2.2.2.2 ⟨"missing timezone"⟩ rfl⟩

/-- C4: the identifier validator accepts `abc`, `_abc`, `Abc`; rejects
`:abc` and `@abc` with `NCNameIllegalFirstChar`; rejects `a:b` with
`NCNameIllegalChar`; and in general any input whose first character is a
legal start character but which contains a later illegal character is
rejected with `NCNameIllegalChar`, never with the first-character kind. -/
theorem nc_name_char_classes :
    NCName.new_if_valid "abc" = .ok ⟨"abc"⟩ ∧
    NCName.new_if_valid "_abc" = .ok ⟨"_abc"⟩ ∧
    NCName.new_if_valid "Abc" = .ok ⟨"Abc"⟩ ∧
    NCName.new_if_valid ":abc" = .error .NCNameIllegalFirstChar ∧
    NCName.new_if_valid "@abc" = .error .NCNameIllegalFirstChar ∧
    NCName.new_if_valid "a:b" = .error .NCNameIllegalChar ∧
    TokenDatatype.validate "abc" = .ok () ∧
    TokenDatatype.validate ":abc" = .error .NCNameIllegalFirstChar ∧
    TokenDatatype.validate "a:b" = .error .NCNameIllegalChar ∧
    (∀ (s : String) (c : Char) (cs : List Char), s.data = c :: cs →
      NCName.is_valid_start_char c = true →
      (∃ d ∈ cs, NCName.is_valid_char d = false) →
      NCName.new_if_valid s = .error .NCNameIllegalChar) := by
  refine ⟨rfl, rfl, rfl, rfl, rfl, rfl, rfl, rfl, rfl, ?_⟩
  intro s c cs hdata hstart hbad
  simp [NCName.new_if_valid, hdata, hstart, validChars_error_of_bad cs hbad]

/-- C4 witness: `x;y` starts legally and contains the illegal `;`, so it is
rejected with `NCNameIllegalChar`. -/
theorem nc_name_char_classes_witness :
    NCName.new_if_valid "x;y" = .error .NCNameIllegalChar :=
  nc_name_char_classes.2.2.2.2.2.2.2.2.2 "x;y" 'x' [';', 'y'] rfl (by decide)
    ⟨';', by decide, by decide⟩

/-- C5: `P4DT23H10S` is accepted by the day-time duration type, `P2Y3M4D` is
rejected and `P2Y3M` accepted by the year-month duration type; in general an
input that parses as an ISO-8601 duration but does not decompose into the
type's unit granularity is rejected with `DurationParse`. -/
theorem duration_granularity :
    DayTimeDurationDatatype.validate "P4DT23H10S" = .ok () ∧
    YearMonthDurationDatatype.validate "P2Y3M4D" = .error .DurationParse ∧
    YearMonthDurationDatatype.validate "P2Y3M" = .ok () ∧
    (∀ (s : String) (d : Duration), iso8601parse s = some d →
      d.num_days = none →
      DayTimeDurationDatatype.validate s = .error .DurationParse) ∧
    (∀ (s : String) (d : Duration), iso8601parse s = some d →
      d.num_months = none →
      YearMonthDurationDatatype.validate s = .error .DurationParse) := by
  refine ⟨rfl, rfl, rfl, ?_, ?_⟩
  · intro s d hp hn
    simp [DayTimeDurationDatatype.validate, hp, hn]
  · intro s d hp hn
    simp [YearMonthDurationDatatype.validate, hp, hn]

/-- C5 witness: `P1Y` parses but has no day decomposition, `P1D` parses but
has no month decomposition; each is rejected by the other family. -/
theorem duration_granularity_witness :
    DayTimeDurationDatatype.validate "P1Y" = .error .DurationParse ∧
    YearMonthDurationDatatype.validate "P1D" = .error .DurationParse :=
  ⟨duration_granularity.2.2.2.1 "P1Y" ⟨1, 0, 0, 0, 0, 0⟩ rfl rfl,
   duration_granularity.2.2.2.2 "P1D" ⟨0, 0, 1, 0, 0, 0⟩ rfl rfl⟩

/-- C6: `https://fedramp.gov/ns/oscal` is accepted by both URI types; the
fragment-only reference `#a78f7e4c-a27a-4b1e-901b-ebfecf2b0301` is rejected
by the absolute-URI type with `UriAbsolute` and accepted by the
URI-reference type; in general any input that parses as a URI but is not
absolute fails the absolute-URI type with `UriAbsolute`, while the
URI-reference type accepts every input that parses. -/
theorem uri_absolute_vs_reference :
    URIDatatype.validate "https://fedramp.gov/ns/oscal" = .ok () ∧
    URIReferenceDatatype.validate "https://fedramp.gov/ns/oscal" = .ok () ∧
    URIDatatype.validate "#a78f7e4c-a27a-4b1e-901b-ebfecf2b0301"
      = .error .UriAbsolute ∧
    URIReferenceDatatype.validate "#a78f7e4c-a27a-4b1e-901b-ebfecf2b0301"
      = .ok () ∧
    (∀ (s : String) (u : UriModel), parseUriM s = .ok u →
      u.is_absolute_uri = false → URIDatatype.validate s = .error .UriAbsolute) ∧
    (∀ (s : String) (u : UriModel), parseUriM s = .ok u →
      URIReferenceDatatype.validate s = .ok ()) := by
  refine ⟨rfl, rfl, rfl, rfl, ?_, ?_⟩
  · intro s u hp ha
    simp [URIDatatype.validate, hp, ha]
  · intro s u hp
    simp [URIReferenceDatatype.validate, hp]

/-- C6 witness: `#a` parses as a relative reference and is rejected by the
absolute-URI type; `foo` parses and is accepted by the reference type. -/
theorem uri_absolute_vs_reference_witness :
    URIDatatype.validate "#a" = .error .UriAbsolute ∧
    URIReferenceDatatype.validate "foo" = .ok () :=
  ⟨uri_absolute_vs_reference.2.2.2.2.1 "#a" ⟨none, true⟩ rfl rfl,
   uri_absolute_vs_reference.2.2.2.2.2 "foo" ⟨none, false⟩ rfl⟩

/-- C7: the plain-string validator accepts `abc`, rejects `" abc"` and
`"abc "`, rejects every input with a leading or trailing whitespace
character with a `StringParse` error, accepts every input equal to its own
trimmed form, and on acceptance construction stores the input unchanged. -/
theorem string_whitespace_rejection :
    StringDatatype.validate "abc" = .ok () ∧
    StringDatatype.validate " abc"
      = .error (.StringParse "Trailing and leading whitespace is not allowed") ∧
    StringDatatype.validate "abc "
      = .error (.StringParse "Trailing and leading whitespace is not allowed") ∧
    (∀ (s : String) (c : Char) (cs : List Char), s.data = c :: cs →
      rustIsWhitespace c = true →
      StringDatatype.validate s
        = .error (.StringParse "Trailing and leading whitespace is not allowed")) ∧
    (∀ (s : String) (l : List Char) (c : Char), s.data = l ++ [c] →
      rustIsWhitespace c = true →
      StringDatatype.validate s
        = .error (.StringParse "Trailing and leading whitespace is not allowed")) ∧
    (∀ s : String, rustTrim s = s → StringDatatype.validate s = .ok ()) ∧
    (∀ s : String, StringDatatype.validate s = .ok () →
      StringDatatype.try_from s = .ok ⟨s⟩) := by
  refine ⟨rfl, rfl, rfl, ?_, ?_, ?_, ?_⟩
  · intro s c cs hdata hws
    have hne := rustTrim_ne_of_shorter s (rustTrim_shorter_of_leading s c cs hdata hws)
    simp [StringDatatype.validate, hne]
  · intro s l c hdata hws
    have hne := rustTrim_ne_of_shorter s (rustTrim_shorter_of_trailing s l c hdata hws)
    simp [StringDatatype.validate, hne]
  · intro s h
    simp [StringDatatype.validate, h]
  · intro s h
    simp [StringDatatype.try_from, string_impl.try_from, h]

/-- C7 witness: `" x"` has leading whitespace and is rejected; `x` is
accepted and stored unchanged. -/
theorem string_whitespace_rejection_witness :
    StringDatatype.validate " x"
      = .error (.StringParse "Trailing and leading whitespace is not allowed") ∧
    StringDatatype.try_from "x" = .ok ⟨"x"⟩ :=
  ⟨string_whitespace_rejection.2.2.2.1 " x" (Char.ofNat 32) ['x'] rfl (by decide),
   string_whitespace_rejection.2.2.2.2.2.2 "x" rfl⟩

/-- C8: the validators of the permissive datatypes (base64, email address,
hostname) return `Ok` on every input. -/
theorem permissive_types_always_ok :
    ∀ s : String,
      Base64Datatype.validate s = .ok () ∧
      EmailAddressDatatype.validate s = .ok () ∧
      HostnameDatatype.validate s = .ok () :=
  fun _ => ⟨rfl, rfl, rfl⟩

/-- C9: construction of the positive and non-negative integer datatypes from
a u64 value never fails, including at zero, even though the metadata
accessor `minimum()` of the positive type returns `Some(1)`. -/
theorem positive_integer_construction_total :
    ∀ n : Nat,
      PositiveIntegerDatatype.from_u64 n = ⟨n⟩ ∧
      PositiveIntegerDatatype.try_from_ref n = .ok ⟨n⟩ ∧
      NonNegativeIntegerDatatype.from_u64 n = ⟨n⟩ ∧
      NonNegativeIntegerDatatype.try_from_ref n = .ok ⟨n⟩ ∧
      PositiveIntegerDatatype.minimum = some 1 :=
  fun _ => ⟨rfl, rfl, rfl, rfl, rfl⟩

/-- C10: the empty string passes the plain-string validator (although the
type's description text declares a non-empty string), is accepted by
`NCName::new_if_valid` (the character loop never runs) and by the token
validator. -/
theorem empty_string_accepted :
    StringDatatype.validate "" = .ok () ∧
    NCName.new_if_valid "" = .ok ⟨""⟩ ∧
    TokenDatatype.validate "" = .ok () ∧
    StringDatatype.description
      = some "A non-empty string with leading and trailing whitespace disallowed. Whitespace is: U+9, U+10, U+32 or [ \n\t]+" :=
  ⟨rfl, rfl, rfl, rfl⟩

end OscalTypes



